import Mathlib

/-!
Verification of the wa-server session lifecycle manager, reply decision
engine, template resolver, credential store and HTTP control surface.

The definitions below are a shallow embedding of the JavaScript sources:
* `src/unnamed/part_000` — the primary server variant (Supabase auth state);
* `src/wa-server.js` — two further server variants (the second one wraps the
  inbound-message handler in a try/catch and filters status jids);
* `src/utils/supabaseAuthState.mjs` — the credential bundle store.

Registry and database rows are modelled as association lists; asynchronous
handlers become explicit state-passing functions on a `SysState`.  JavaScript
truthiness on strings (empty string is falsy) is modelled explicitly where the
source relies on it.
-/

namespace WaServer

/-! ### Association list helpers (model of `Map` / keyed DB rows) -/

def alookup {α : Type} : List (String × α) → String → Option α
  | [], _ => none
  | p :: rest, k => if p.1 = k then some p.2 else alookup rest k

def aset {α : Type} : List (String × α) → String → α → List (String × α)
  | [], k, v => [(k, v)]
  | p :: rest, k, v => if p.1 = k then (k, v) :: rest else p :: aset rest k v

def aerase {α : Type} : List (String × α) → String → List (String × α)
  | [], _ => []
  | p :: rest, k => if p.1 = k then aerase rest k else p :: aerase rest k

/-- Model of a supabase `update(...).eq(key, t)`: update every matching row,
create nothing. -/
def updateRowIfPresent {α : Type} (db : List (String × α)) (t : String)
    (f : α → α) : List (String × α) :=
  db.map (fun p => if p.1 = t then (p.1, f p.2) else p)

/-! ### JS string helpers -/

/-- JS `a || b` on possibly-missing strings: empty string is falsy. -/
def jsOrS (a b : Option String) : Option String :=
  match a with
  | some s => if s = "" then b else some s
  | none => b

/-- JS truthiness of a possibly-missing string. -/
def jsTruthyS : Option String → Bool
  | none => false
  | some s => !(s = "")

/-- JS `haystack.includes(needle)` (substring containment). -/
def includesStr (s sub : String) : Bool :=
  s.data.tails.any (fun t => sub.data.isPrefixOf t)

/-- JS `s.toLowerCase()` (character-wise, sufficient for the ASCII keyword
set used by the reply engine). -/
def toLowerStr (s : String) : String :=
  String.mk (s.data.map Char.toLower)

/-- JS `s.trim()`: strip leading and trailing whitespace. -/
def trimStr (s : String) : String :=
  String.mk (((s.data.dropWhile Char.isWhitespace).reverse.dropWhile
    Char.isWhitespace).reverse)

/-- JS `s.endsWith(suffix)`. -/
def endsWithStr (s suf : String) : Bool :=
  suf.data.isSuffixOf s.data

/-- JS `phone.replace(/\D/g, "")`: keep only ASCII digits. -/
def digitsOnly (s : String) : String :=
  String.mk (s.data.filter Char.isDigit)

/-! ### Template rendering (src/unnamed/part_000, `renderTemplate`, lines 98-103)

`body.replace(/\x7b\x7b(\w+)\x7d\x7d/g, (_, key) => variables[key] || "")`:
a left-to-right scan; at each position a match is two braces, a non-empty
maximal run of word characters, two closing braces; the replacement text is
not rescanned. -/

/-- JS `\w`: ASCII letters, digits, underscore. -/
def isWordChar (c : Char) : Bool :=
  c.isAlphanum || c = '_'

/-- Try to match a placeholder at the head of the character list; on success
return the identifier characters and the remainder after the match. -/
def matchPH : List Char → Option (List Char × List Char)
  | c1 :: c2 :: rest =>
    if c1 = '{' ∧ c2 = '{' then
      let w := rest.takeWhile isWordChar
      match rest.dropWhile isWordChar with
      | d1 :: d2 :: r2 =>
        if d1 = '}' ∧ d2 = '}' ∧ ¬ w.isEmpty = true then some (w, r2) else none
      | _ => none
    else none
  | _ => none

/-- Lookup `variables[key] || ""` — missing variables render as the empty string. -/
def lookupVar (vars : List (String × String)) (w : List Char) : String :=
  (alookup vars (String.mk w)).getD ""

theorem dropWhile_len_le (p : Char → Bool) (l : List Char) :
    (l.dropWhile p).length ≤ l.length := by
  induction l with
  | nil => simp [List.dropWhile]
  | cons a l ih =>
    simp only [List.dropWhile]
    split
    · exact Nat.le_trans ih (Nat.le_succ _)
    · exact Nat.le_refl _

theorem matchPH_length {l : List Char} {w r : List Char}
    (h : matchPH l = some (w, r)) : r.length < l.length := by
  match l with
  | [] => simp [matchPH] at h
  | [c] => simp [matchPH] at h
  | c1 :: c2 :: rest =>
    simp only [matchPH] at h
    split at h
    · split at h
      case _ d1 d2 r2 hdrop =>
        split at h
        · obtain ⟨hw, hr⟩ := Prod.mk.injEq .. ▸ Option.some.injEq .. ▸ h
          subst hr
          have h1 : (List.dropWhile isWordChar rest).length ≤ rest.length :=
            dropWhile_len_le _ _
          rw [hdrop] at h1
          simp only [List.length_cons] at h1 ⊢
          omega
        · exact absurd h (by simp)
      case _ => exact absurd h (by simp)
    · exact absurd h (by simp)

/-- The global-replace scan, fuelled so that it computes by `rfl`; the fuel
is always instantiated with the length of the list, which `matchPH_length`
shows suffices. -/
def renderAuxF (vars : List (String × String)) : Nat → List Char → List Char
  | _, [] => []
  | 0, l => l
  | fuel + 1, c :: rest =>
    match matchPH (c :: rest) with
    | some (w, r2) => (lookupVar vars w).data ++ renderAuxF vars fuel r2
    | none => c :: renderAuxF vars fuel rest

/-- The global-replace scan. -/
def renderAux (vars : List (String × String)) (l : List Char) : List Char :=
  renderAuxF vars l.length l

theorem renderAuxF_congr (vars : List (String × String)) :
    ∀ (f1 : Nat) (f2 : Nat) (l : List Char), l.length ≤ f1 → l.length ≤ f2 →
      renderAuxF vars f1 l = renderAuxF vars f2 l := by
  intro f1
  induction f1 with
  | zero =>
    intro f2 l h1 _
    have hl : l = [] := List.eq_nil_of_length_eq_zero (Nat.le_zero.mp h1)
    subst hl
    cases f2 <;> simp [renderAuxF]
  | succ f1 ih =>
    intro f2 l h1 h2
    match l with
    | [] => cases f2 <;> simp [renderAuxF]
    | c :: rest =>
      match f2 with
      | 0 => exact absurd h2 (by simp)
      | f2 + 1 =>
        simp only [renderAuxF]
        rcases hm : matchPH (c :: rest) with _ | ⟨w, r2⟩
        · simp only []
          have hr : rest.length ≤ f1 := by
            simp only [List.length_cons] at h1; omega
          have hr2 : rest.length ≤ f2 := by
            simp only [List.length_cons] at h2; omega
          rw [ih f2 rest hr hr2]
        · simp only []
          have hlen := matchPH_length hm
          have hr : r2.length ≤ f1 := by
            simp only [List.length_cons] at h1 hlen; omega
          have hr2 : r2.length ≤ f2 := by
            simp only [List.length_cons] at h2 hlen; omega
          rw [ih f2 r2 hr hr2]

/-- The clean unfolding equation for `renderAux`. -/
theorem renderAux_cons (vars : List (String × String)) (c : Char) (rest : List Char) :
    renderAux vars (c :: rest) =
      match matchPH (c :: rest) with
      | some (w, r2) => (lookupVar vars w).data ++ renderAux vars r2
      | none => c :: renderAux vars rest := by
  simp only [renderAux, List.length_cons, renderAuxF]
  rcases hm : matchPH (c :: rest) with _ | ⟨w, r2⟩
  · simp only []
  · simp only []
    have hlen := matchPH_length hm
    simp only [List.length_cons] at hlen
    rw [renderAuxF_congr vars rest.length r2.length r2 (by omega) (Nat.le_refl _)]

/-- Model of `renderTemplate(body, variables)` from part_000: empty body gives `""`,
otherwise the regex replacement. -/
def renderTemplate (body : String) (vars : List (String × String)) : String :=
  if body = "" then "" else String.mk (renderAux vars body.data)

/-- Whether any position in the scan carries a placeholder match. -/
def hasPH : List Char → Bool
  | [] => false
  | c :: rest => (matchPH (c :: rest)).isSome || hasPH rest

/-- Whether a rendered string still contains a placeholder occurrence. -/
def hasPlaceholder (s : String) : Bool :=
  hasPH s.data

/-! ### Session registry and persisted rows (src/unnamed/part_000)

`sessions` is the in-memory `Map`; an entry is the `info` object created in
`getOrCreateSession` (lines 187-208).  The persisted `whatsapp_sessions` row
keeps the fields the lifecycle handlers write (`status`, `qr_data`,
`auth_state`, `last_error`); timestamps are omitted.  `connectionsCreated`
counts calls to `makeWASocket`, `messagesSent` counts calls to
`sock.sendMessage` from the send-template endpoint. -/

structure SessionInfo where
  tenantId : String
  hasSocket : Bool
  status : String
  qr : Option String
deriving Repr, DecidableEq

structure DBRow where
  status : String
  qrData : Option String
  authState : Option String
  lastError : Option String
deriving Repr, DecidableEq

structure SysState where
  sessions : List (String × SessionInfo)
  db : List (String × DBRow)
  connectionsCreated : Nat
  messagesSent : Nat
deriving Repr, DecidableEq

/-- Baileys `DisconnectReason.loggedOut`. -/
def DisconnectReason_loggedOut : Nat := 401

/-- Socket construction plus registry insertion (part_000 lines 198-208):
`makeWASocket(...)`, then `info = \x7b tenantId, socket: sock, status:
"connecting", qr: null \x7d`, then `sessions.set(tenantId, info)`. -/
def createSession (s : SysState) (t : String) : SysState × SessionInfo :=
  let info : SessionInfo := ⟨t, true, "connecting", none⟩
  ({ s with sessions := aset s.sessions t info,
            connectionsCreated := s.connectionsCreated + 1 }, info)

/-- Model of `getOrCreateSession(tenantId)` (part_000 lines 187-208), treated as one
atomic step: return the existing entry when it holds a socket, otherwise
construct a connection and insert a fresh `connecting` entry. -/
def getOrCreateSession (s : SysState) (t : String) : SysState × SessionInfo :=
  match alookup s.sessions t with
  | some existing =>
    if existing.hasSocket then (s, existing) else createSession s t
  | none => createSession s t

/-- DB write performed by the `qr` branch of `connection.update`
(part_000 lines 213-225). -/
def dbSetQr (db : List (String × DBRow)) (t q : String) : List (String × DBRow) :=
  updateRowIfPresent db t (fun r => { r with status := "qrcode", qrData := some q })

/-- DB write performed by the `open` branch (part_000 lines 227-242). -/
def dbSetConnected (db : List (String × DBRow)) (t : String) : List (String × DBRow) :=
  updateRowIfPresent db t
    (fun r => { r with status := "connected", qrData := none, lastError := none })

/-- DB write performed on logout and on explicit disconnect: persist
`disconnected`, clear `qr_data` and `auth_state` (part_000 lines 255-261
and 329-334). -/
def dbSetDisconnected (db : List (String × DBRow)) (t : String)
    (err : Option String) : List (String × DBRow) :=
  updateRowIfPresent db t
    (fun r => { r with status := "disconnected", qrData := none,
                       authState := none, lastError := err })

/-- The `connection.update` handler, `qr` branch: mutate the registry entry to
`qrcode` with the challenge stored, persist it. -/
def handleQr (s : SysState) (t : String) (q : String) : SysState :=
  match alookup s.sessions t with
  | none => s
  | some info =>
    { s with sessions := aset s.sessions t { info with status := "qrcode", qr := some q },
             db := dbSetQr s.db t q }

/-- The `connection.update` handler, `open` branch: status `connected`, challenge
cleared, persisted. -/
def handleOpen (s : SysState) (t : String) : SysState :=
  match alookup s.sessions t with
  | none => s
  | some info =>
    { s with sessions := aset s.sessions t { info with status := "connected", qr := none },
             db := dbSetConnected s.db t }

/-- The `connection.update` handler, `close` branch (part_000 lines 244-263):
`shouldReconnect = statusCode !== DisconnectReason.loggedOut`; recoverable
closes delete the entry and immediately re-invoke `getOrCreateSession`;
logout deletes the entry and persists `disconnected` with cleared
credentials. -/
def handleClose (s : SysState) (t : String) (statusCode : Option Nat)
    (errMsg : Option String) : SysState :=
  let s1 : SysState := { s with sessions := aerase s.sessions t }
  if statusCode ≠ some DisconnectReason_loggedOut then
    (getOrCreateSession s1 t).1
  else
    let errorMsg := (jsOrS errMsg (some "Desconexión desconocida")).getD ""
    { s1 with db := dbSetDisconnected s1.db t (some ("Logout: " ++ errorMsg)) }

/-- Endpoint `POST /sessions/:tenantId/disconnect` (part_000 lines 324-337): best-effort
logout, delete the entry, persist `disconnected` with cleared credentials. -/
def handleDisconnect (s : SysState) (t : String) : SysState :=
  { s with sessions := aerase s.sessions t,
           db := dbSetDisconnected s.db t none }

/-! ### Template resolver and reply decision engine (part_000 lines 74-160) -/

/-- A `message_templates` row. -/
structure TemplateRecord where
  tenantId : String
  event : String
  active : Bool
  body : String
deriving Repr, DecidableEq

/-- Model of `getTemplate(tenantId, eventKey)`: first active row matching both keys;
`data?.body || null` makes an empty body fall through to `null`. -/
def getTemplate : List TemplateRecord → String → String → Option String
  | [], _, _ => none
  | r :: rest, t, e =>
    if r.tenantId = t ∧ r.event = e ∧ r.active = true then
      if r.body = "" then none else some r.body
    else getTemplate rest t e

def priceKeywords : List String :=
  ["precio", "costo", "cuanto vale", "planes", "tarifa"]

/-- Outcome of `generateReply`: a rendered template, or whatever the AI
backend produced (`none` models the OpenAI failure path returning `null`). -/
inductive ReplyResult
  | fromTemplate (s : String)
  | fromAI (s : Option String)
deriving Repr, DecidableEq

/-- Model of `generateReply(text, tenantId)` (part_000 lines 109-160), with the
template table and the AI completion as explicit inputs.  Keyword detection
lowercases the trimmed input and tests substring containment; a found
`pricing_pitch` template is rendered with empty variables and returned
without consulting the AI. -/
def generateReply (tdb : List TemplateRecord) (tenantId text : String)
    (aiResult : Option String) : ReplyResult :=
  let lower := toLowerStr (trimStr text)
  let isPriceQuestion := priceKeywords.any (fun kw => includesStr lower kw)
  if isPriceQuestion then
    match getTemplate tdb tenantId "pricing_pitch" with
    | some templateBody => .fromTemplate (renderTemplate templateBody [])
    | none => .fromAI aiResult
  else
    .fromAI aiResult

/-! ### Inbound message handlers (`messages.upsert`)

Two variants are embedded: the handler of `src/unnamed/part_000`
(lines 268-285, no try/catch) and the handler of the second variant in
`src/wa-server.js` (lines 614-657, whole pipeline inside try/catch, extra
`@status` filter and ephemeral-envelope extraction).  The reply engine and
the transport send are passed in as functions; a send may fail. -/

structure WAKey where
  fromMe : Bool
  remoteJid : Option String
deriving Repr, DecidableEq

structure WATextContent where
  conversation : Option String
  extendedText : Option String
  ephConversation : Option String
  ephExtendedText : Option String
deriving Repr, DecidableEq

structure WAMessage where
  key : WAKey
  message : Option WATextContent
deriving Repr, DecidableEq

structure UpsertEvent where
  messages : List WAMessage
deriving Repr, DecidableEq

inductive UpsertOutcome
  | dropped
  | replied (jid reply : String)
  | noReply (jid text : String)
deriving Repr, DecidableEq

/-- part_000 handler (lines 268-285).  There is no try/catch: a missing
`remoteJid` makes `remoteJid.includes` throw, and a failing
`sock.sendMessage` rejects the handler's promise; both are modelled as
`Except.error`. -/
def handleUpsert_p0 (genReply : String → Option String)
    (send : String → String → Except String Unit) (m : UpsertEvent) :
    Except String UpsertOutcome :=
  match m.messages.head? with
  | none => .ok .dropped
  | some msg =>
    match msg.message with
    | none => .ok .dropped
    | some content =>
      if msg.key.fromMe then .ok .dropped
      else
        match msg.key.remoteJid with
        | none => .error "TypeError: remoteJid is null"
        | some remoteJid =>
          if includesStr remoteJid "@g.us" then .ok .dropped
          else
            match jsOrS content.conversation content.extendedText with
            | none => .ok .dropped
            | some text =>
              if text = "" then .ok .dropped
              else
                match genReply text with
                | some reply =>
                  match send remoteJid reply with
                  | .ok _ => .ok (.replied remoteJid reply)
                  | .error e => .error e
                | none => .ok (.noReply remoteJid text)

/-- Pipeline of the second `wa-server.js` handler (lines 614-657) before the
surrounding try/catch is applied. -/
def handleUpsert_waB_inner (genReply : String → Option String)
    (send : String → String → Except String Unit) (m : UpsertEvent) :
    Except String UpsertOutcome :=
  match m.messages.head? with
  | none => .ok .dropped
  | some msg =>
    match msg.message with
    | none => .ok .dropped
    | some content =>
      match msg.key.remoteJid with
      | none => .ok .dropped
      | some remoteJid =>
        if endsWithStr remoteJid "@status" then .ok .dropped
        else if endsWithStr remoteJid "@g.us" then .ok .dropped
        else if msg.key.fromMe then .ok .dropped
        else
          let text := (jsOrS content.conversation
            (jsOrS content.extendedText
              (jsOrS content.ephConversation content.ephExtendedText))).getD ""
          let cleanText := trimStr text
          if cleanText = "" then .ok .dropped
          else
            match genReply cleanText with
            | some reply =>
              match send remoteJid reply with
              | .ok _ => .ok (.replied remoteJid reply)
              | .error e => .error e
            | none => .ok (.noReply remoteJid cleanText)

/-- The second `wa-server.js` handler: the whole pipeline is inside
`try \x7b ... \x7d catch (err) \x7b logger.error(...) \x7d`, so every error
is caught and the handler returns normally. -/
def handleUpsert_waB (genReply : String → Option String)
    (send : String → String → Except String Unit) (m : UpsertEvent) :
    UpsertOutcome :=
  match handleUpsert_waB_inner genReply send m with
  | .ok o => o
  | .error _ => .dropped

/-- The (jid, text) pair the part_000 handler hands to the reply decision
engine, observed by instrumenting the engine with an identity reply. -/
def engineInput_p0 (m : UpsertEvent) : Option (String × String) :=
  match handleUpsert_p0 (fun t => some t) (fun _ _ => .ok ()) m with
  | .ok (.replied j t) => some (j, t)
  | _ => none

/-- Same observation for the second `wa-server.js` handler. -/
def engineInput_waB (m : UpsertEvent) : Option (String × String) :=
  match handleUpsert_waB (fun t => some t) (fun _ _ => .ok ()) m with
  | .replied j t => some (j, t)
  | _ => none

/-! ### Credential bundle store (src/utils/supabaseAuthState.mjs)

`keys` is a two-level mapping category → id → value; `keys.set(data)`
(lines 55-65) iterates the incoming categories and ids, creating missing
category objects and overwriting per id, then awaits `saveState()`, which
persists the full `\x7b creds, keys \x7d` snapshot, before returning. -/

abbrev KeyStore : Type := List (String × List (String × String))

def klookup (ks : KeyStore) (c i : String) : Option String :=
  match alookup ks c with
  | some cat => alookup cat i
  | none => none

/-- Inner loop: `for (const id in data[category]) keys[category][id] = value`. -/
def setCategory (cat : List (String × String)) (updates : List (String × String)) :
    List (String × String) :=
  updates.foldl (fun acc p => aset acc p.1 p.2) cat

/-- Outer loop over categories, with `if (!keys[category]) keys[category] = \x7b\x7d`. -/
def keysSet (ks : KeyStore) (data : KeyStore) : KeyStore :=
  data.foldl (fun acc p => aset acc p.1 (setCategory ((alookup acc p.1).getD []) p.2)) ks

structure AuthBundle where
  creds : String
  keys : KeyStore

/-- Model of `keys.set` followed by the awaited `saveState()`: returns the new
in-memory bundle together with the snapshot persisted before the update is
acknowledged. -/
def keysSetHook (b : AuthBundle) (data : KeyStore) : AuthBundle × AuthBundle :=
  let b2 : AuthBundle := { b with keys := keysSet b.keys data }
  (b2, b2)

/-! ### `POST /sessions/:tenantId/send-template` (part_000 lines 339-370) -/

inductive STResponse
  | missingData
  | notConnected
  | templateNotFound
  | sent (message : String)
  | sendError
deriving Repr, DecidableEq

/-- Model of `let session = sessions.get(tenantId); if (!session || session.status !==
'connected') session = await getOrCreateSession(tenantId)` (lines 345-348).
The `catch(e)\x7b\x7d` cannot fire in the model since the embedded
`getOrCreateSession` is total. -/
def ensureForSend (s : SysState) (t : String) : SysState × SessionInfo :=
  match alookup s.sessions t with
  | some sess0 =>
    if sess0.status = "connected" then (s, sess0) else getOrCreateSession s t
  | none => getOrCreateSession s t

/-- The send-template request handler.  `sendOk` tells whether the transport
send would succeed.  Validation uses JS truthiness; the post-attempt check
reads the status of whatever `getOrCreateSession` returned. -/
def sendTemplateHandler (s : SysState) (tdb : List TemplateRecord) (t : String)
    (event phone : Option String) (vars : List (String × String))
    (sendOk : Bool) : SysState × STResponse :=
  if !(jsTruthyS event) || !(jsTruthyS phone) then (s, .missingData)
  else
    let step := ensureForSend s t
    let s1 := step.1
    let sess := step.2
    if sess.status ≠ "connected" then (s1, .notConnected)
    else
      match getTemplate tdb t (event.getD "") with
      | none => (s1, .templateNotFound)
      | some templateBody =>
        let message := renderTemplate templateBody vars
        let s2 := { s1 with messagesSent := s1.messagesSent + 1 }
        if sendOk then (s2, .sent message) else (s2, .sendError)

/-! ### Step relation and reachability

Each constructor is one atomic turn of the single-threaded event loop:
an `ensureSession` call (from `/connect` or internal), a transport lifecycle
event, an explicit disconnect, or a send-template request. -/

inductive Step : SysState → SysState → Prop
  | ensure (s : SysState) (t : String) : Step s (getOrCreateSession s t).1
  | qrEvent (s : SysState) (t q : String) : Step s (handleQr s t q)
  | openEvent (s : SysState) (t : String) : Step s (handleOpen s t)
  | closeEvent (s : SysState) (t : String) (code : Option Nat) (msg : Option String) :
      Step s (handleClose s t code msg)
  | disconnectReq (s : SysState) (t : String) : Step s (handleDisconnect s t)
  | sendTemplateReq (s : SysState) (tdb : List TemplateRecord) (t : String)
      (event phone : Option String) (vars : List (String × String)) (sendOk : Bool) :
      Step s (sendTemplateHandler s tdb t event phone vars sendOk).1

/-- The process starts with an empty registry; the persisted rows are
arbitrary. -/
def initState (db0 : List (String × DBRow)) : SysState :=
  ⟨[], db0, 0, 0⟩

def ReachableState (s : SysState) : Prop :=
  ∃ db0, Relation.ReflTransGen Step (initState db0) s

/-- Registry invariant: every entry holds a socket and is never in a
`disconnected` status. -/
def LiveReg (l : List (String × SessionInfo)) : Prop :=
  ∀ t info, alookup l t = some info →
    info.hasSocket = true ∧ info.status ≠ "disconnected"

/-! ### The non-atomic shape of `getOrCreateSession`

In the source (part_000 lines 187-208) the registry check at line 188 is
separated from the socket construction and the `sessions.set` at line 208 by
several awaited calls: the dynamic imports (lines 193-194) and the
credential-bundle load `useSupabaseAuthState(supabase, tenantId)` (line 196).
The event loop may therefore run another `getOrCreateSession` for the same
tenant between the check and the insertion.  `ensureCheck` is the
synchronous prefix up to line 189; `createSession` is the resumed suffix. -/

def ensureCheck (s : SysState) (t : String) : Option SessionInfo :=
  match alookup s.sessions t with
  | some existing => if existing.hasSocket then some existing else none
  | none => none

/-- The interleaving in which both concurrent calls run their registry check
before either resumes from the awaited credential load: call 1 checks,
call 2 checks, call 1 constructs a socket and inserts, call 2 constructs a
second socket and overwrites the entry. -/
def twoEnsureInterleaved (s : SysState) (t : String) : SysState :=
  match ensureCheck s t with
  | some _ => s
  | none =>
    match ensureCheck s t with
    | some _ => (createSession s t).1
    | none =>
      let s1 := (createSession s t).1
      (createSession s1 t).1

/-! ### Concrete inbound events used to evaluate the handlers -/

/-- A plain direct text message from a customer. -/
def plainInbound : UpsertEvent :=
  ⟨[⟨⟨false, some "18095551234@s.whatsapp.net"⟩,
     some ⟨some "hola", none, none, none⟩⟩]⟩

/-- A plain direct text message, used to exercise the send failure path. -/
def demoInbound : UpsertEvent :=
  ⟨[⟨⟨false, some "18295550000@s.whatsapp.net"⟩,
     some ⟨some "buenas", none, none, none⟩⟩]⟩

/-- A status-update broadcast carrying text. -/
def statusInbound : UpsertEvent :=
  ⟨[⟨⟨false, some "status@broadcast"⟩,
     some ⟨some "hola", none, none, none⟩⟩]⟩

/-! ### Association list lemmas -/

theorem alookup_aset {α : Type} (l : List (String × α)) (k k' : String) (v : α) :
    alookup (aset l k v) k' = if k = k' then some v else alookup l k' := by
  induction l with
  | nil => simp [aset, alookup]
  | cons p rest ih =>
    simp only [aset]
    split
    · simp only [alookup]
      split_ifs <;> simp_all [alookup]
    · simp only [alookup]
      split_ifs <;> simp_all

theorem alookup_aerase {α : Type} (l : List (String × α)) (k k' : String) :
    alookup (aerase l k) k' = if k' = k then none else alookup l k' := by
  induction l with
  | nil => simp [aerase, alookup]
  | cons p rest ih =>
    by_cases h2 : k' = k
    · subst h2
      by_cases h1 : p.1 = k'
      · simp [aerase, h1, ih]
      · simp [aerase, h1, alookup, ih]
    · by_cases h1 : p.1 = k
      · have h3 : ¬ p.1 = k' := by
          rw [h1]; exact fun hh => h2 hh.symm
        have h4 : ¬ k = k' := fun hh => h2 hh.symm
        simp [aerase, h1, ih, h2, alookup, h3, h4]
      · simp [aerase, alookup, h1, h2, ih]

theorem alookup_updateRowIfPresent {α : Type} (db : List (String × α))
    (t k : String) (f : α → α) :
    alookup (updateRowIfPresent db t f) k =
      if k = t then (alookup db k).map f else alookup db k := by
  induction db with
  | nil => simp [updateRowIfPresent, alookup]
  | cons p rest ih =>
    simp only [updateRowIfPresent, List.map_cons]
    split
    · simp only [alookup]
      split_ifs <;> simp_all [updateRowIfPresent, alookup]
    · simp only [alookup]
      split_ifs <;> simp_all [updateRowIfPresent]

/-! ### Registry invariant preservation -/

theorem liveReg_aset_live {l : List (String × SessionInfo)} {t : String}
    {info : SessionInfo} (h : LiveReg l) (hs : info.hasSocket = true)
    (hd : info.status ≠ "disconnected") : LiveReg (aset l t info) := by
  intro t' info' hlk
  rw [alookup_aset] at hlk
  by_cases heq : t = t'
  · rw [if_pos heq] at hlk
    obtain rfl : info = info' := Option.some.inj hlk
    exact ⟨hs, hd⟩
  · rw [if_neg heq] at hlk
    exact h t' info' hlk

theorem liveReg_aerase {l : List (String × SessionInfo)} {t : String}
    (h : LiveReg l) : LiveReg (aerase l t) := by
  intro t' info' hlk
  rw [alookup_aerase] at hlk
  by_cases heq : t' = t
  · rw [if_pos heq] at hlk
    exact absurd hlk (by simp)
  · rw [if_neg heq] at hlk
    exact h t' info' hlk

theorem liveReg_createSession {s : SysState} {t : String}
    (h : LiveReg s.sessions) : LiveReg (createSession s t).1.sessions := by
  simp only [createSession]
  exact liveReg_aset_live h rfl (by simp)

theorem liveReg_getOrCreateSession {s : SysState} {t : String}
    (h : LiveReg s.sessions) : LiveReg (getOrCreateSession s t).1.sessions := by
  simp only [getOrCreateSession]
  split
  · split
    · exact h
    · exact liveReg_createSession h
  · exact liveReg_createSession h

theorem liveReg_handleQr {s : SysState} {t q : String}
    (h : LiveReg s.sessions) : LiveReg (handleQr s t q).sessions := by
  simp only [handleQr]
  split
  · exact h
  case _ info heq =>
    exact liveReg_aset_live h (h t info heq).1 (by simp)

theorem liveReg_handleOpen {s : SysState} {t : String}
    (h : LiveReg s.sessions) : LiveReg (handleOpen s t).sessions := by
  simp only [handleOpen]
  split
  · exact h
  case _ info heq =>
    exact liveReg_aset_live h (h t info heq).1 (by simp)

theorem liveReg_handleClose {s : SysState} {t : String} {code : Option Nat}
    {msg : Option String} (h : LiveReg s.sessions) :
    LiveReg (handleClose s t code msg).sessions := by
  simp only [handleClose]
  split
  · exact liveReg_getOrCreateSession (s := { s with sessions := aerase s.sessions t })
      (liveReg_aerase h)
  · exact liveReg_aerase h

theorem liveReg_handleDisconnect {s : SysState} {t : String}
    (h : LiveReg s.sessions) : LiveReg (handleDisconnect s t).sessions := by
  simp only [handleDisconnect]
  exact liveReg_aerase h

theorem ensureForSend_none {s : SysState} {t : String}
    (h : alookup s.sessions t = none) :
    ensureForSend s t = getOrCreateSession s t := by
  unfold ensureForSend
  rw [h]

theorem ensureForSend_some {s : SysState} {t : String} {sess0 : SessionInfo}
    (h : alookup s.sessions t = some sess0) :
    ensureForSend s t =
      if sess0.status = "connected" then (s, sess0) else getOrCreateSession s t := by
  unfold ensureForSend
  rw [h]

theorem getOrCreateSession_none {s : SysState} {t : String}
    (h : alookup s.sessions t = none) :
    getOrCreateSession s t = createSession s t := by
  unfold getOrCreateSession
  rw [h]

theorem getOrCreateSession_some {s : SysState} {t : String} {ex : SessionInfo}
    (h : alookup s.sessions t = some ex) :
    getOrCreateSession s t =
      if ex.hasSocket then (s, ex) else createSession s t := by
  unfold getOrCreateSession
  rw [h]

theorem ensureForSend_state_cases (s : SysState) (t : String) :
    (ensureForSend s t).1 = s ∨ (ensureForSend s t).1 = (getOrCreateSession s t).1 := by
  simp only [ensureForSend]
  split
  · split
    · exact Or.inl rfl
    · exact Or.inr rfl
  · exact Or.inr rfl

theorem sendTemplate_sessions_cases (s : SysState) (tdb : List TemplateRecord)
    (t : String) (event phone : Option String) (vars : List (String × String))
    (sendOk : Bool) :
    (sendTemplateHandler s tdb t event phone vars sendOk).1.sessions = s.sessions ∨
    (sendTemplateHandler s tdb t event phone vars sendOk).1.sessions =
      (getOrCreateSession s t).1.sessions := by
  simp only [sendTemplateHandler]
  split
  · exact Or.inl rfl
  · rcases ensureForSend_state_cases s t with hc | hc <;>
    · split
      · rw [hc]; simp
      · split
        · rw [hc]; simp
        · split <;> (rw [hc]; simp)

theorem liveReg_sendTemplateHandler {s : SysState} {tdb : List TemplateRecord}
    {t : String} {event phone : Option String} {vars : List (String × String)}
    {sendOk : Bool} (h : LiveReg s.sessions) :
    LiveReg (sendTemplateHandler s tdb t event phone vars sendOk).1.sessions := by
  rcases sendTemplate_sessions_cases s tdb t event phone vars sendOk with hc | hc
  · rw [hc]; exact h
  · rw [hc]; exact liveReg_getOrCreateSession h

theorem step_preserves_liveReg {s s' : SysState} (hs : LiveReg s.sessions)
    (hstep : Step s s') : LiveReg s'.sessions := by
  cases hstep with
  | ensure t => exact liveReg_getOrCreateSession hs
  | qrEvent t q => exact liveReg_handleQr hs
  | openEvent t => exact liveReg_handleOpen hs
  | closeEvent t code msg => exact liveReg_handleClose hs
  | disconnectReq t => exact liveReg_handleDisconnect hs
  | sendTemplateReq tdb t event phone vars sendOk =>
      exact liveReg_sendTemplateHandler hs

theorem reachable_liveReg {s : SysState} (h : ReachableState s) :
    LiveReg s.sessions := by
  obtain ⟨db0, hgen⟩ := h
  induction hgen with
  | refl => intro t info hlk; simp [initState, alookup] at hlk
  | tail _ hstep ih => exact step_preserves_liveReg ih hstep

/-! ### Rendering lemmas -/

theorem renderAux_no_ph (vars : List (String × String)) :
    ∀ l : List Char, hasPH l = false → renderAux vars l = l := by
  intro l
  induction l with
  | nil => intro _; simp [renderAux, renderAuxF]
  | cons c rest ih =>
    intro h
    simp only [hasPH, Bool.or_eq_false_iff] at h
    obtain ⟨h1, h2⟩ := h
    have hm : matchPH (c :: rest) = none := Option.not_isSome_iff_eq_none.mp (by simp [h1])
    rw [renderAux_cons, hm]
    simp only []
    rw [ih h2]

theorem takeWhile_all_app (p : Char → Bool) :
    ∀ (w : List Char) (d : Char) (rest : List Char), w.all p = true → p d = false →
      (w ++ d :: rest).takeWhile p = w := by
  intro w
  induction w with
  | nil => intro d rest _ hd; simp [List.takeWhile, hd]
  | cons a w ih =>
    intro d rest hall hd
    simp only [List.all_cons, Bool.and_eq_true] at hall
    simp [List.takeWhile, hall.1, ih d rest hall.2 hd]

theorem dropWhile_all_app (p : Char → Bool) :
    ∀ (w : List Char) (d : Char) (rest : List Char), w.all p = true → p d = false →
      (w ++ d :: rest).dropWhile p = d :: rest := by
  intro w
  induction w with
  | nil => intro d rest _ hd; simp [List.dropWhile, hd]
  | cons a w ih =>
    intro d rest hall hd
    simp only [List.all_cons, Bool.and_eq_true] at hall
    simp [List.dropWhile, hall.1, ih d rest hall.2 hd]

/-- A well-formed placeholder at the head of the scan is matched exactly. -/
theorem matchPH_placeholder (w rest : List Char) (hw : w ≠ [])
    (hall : w.all isWordChar = true) :
    matchPH ('{' :: '{' :: (w ++ '}' :: '}' :: rest)) = some (w, rest) := by
  have h1 : isWordChar '}' = false := by decide
  simp only [matchPH, if_pos (And.intro rfl rfl)]
  rw [takeWhile_all_app isWordChar w '}' ('}' :: rest) hall h1,
      dropWhile_all_app isWordChar w '}' ('}' :: rest) hall h1]
  simp [hw]

/-- The scan substitutes a well-formed placeholder by the variable's value
(or the empty string) and goes on after it. -/
theorem renderAux_placeholder (vars : List (String × String)) (w rest : List Char)
    (hw : w ≠ []) (hall : w.all isWordChar = true) :
    renderAux vars ('{' :: '{' :: (w ++ '}' :: '}' :: rest)) =
      (lookupVar vars w).data ++ renderAux vars rest := by
  rw [renderAux_cons, matchPH_placeholder w rest hw hall]

theorem renderTemplate_no_ph (body : String) (vars : List (String × String))
    (h : hasPlaceholder body = false) : renderTemplate body vars = body := by
  unfold renderTemplate
  split
  · simp_all
  · rw [renderAux_no_ph vars body.data h]

theorem renderTemplate_idem_aux (body : String) (vars : List (String × String))
    (h : hasPlaceholder (renderTemplate body vars) = false) :
    renderTemplate (renderTemplate body vars) vars = renderTemplate body vars :=
  renderTemplate_no_ph _ vars h

/-! ### Credential merge lemmas -/

theorem alookup_eq_none_of_not_mem {α : Type} (l : List (String × α)) (k : String)
    (h : k ∉ l.map Prod.fst) : alookup l k = none := by
  induction l with
  | nil => simp [alookup]
  | cons p rest ih =>
    simp only [List.map_cons, List.mem_cons] at h
    push_neg at h
    simp only [alookup]
    rw [if_neg (fun hh => h.1 hh.symm)]
    exact ih h.2

theorem alookup_setCategory_none (cat : List (String × String))
    (ups : List (String × String)) (i : String) (h : alookup ups i = none) :
    alookup (setCategory cat ups) i = alookup cat i := by
  induction ups generalizing cat with
  | nil => simp [setCategory]
  | cons u rest ih =>
    simp only [alookup] at h
    by_cases hu : u.1 = i
    · rw [if_pos hu] at h; cases h
    · rw [if_neg hu] at h
      have : setCategory cat (u :: rest) = setCategory (aset cat u.1 u.2) rest := by
        simp [setCategory]
      rw [this, ih (aset cat u.1 u.2) h, alookup_aset, if_neg hu]

theorem alookup_setCategory (cat : List (String × String))
    (ups : List (String × String)) (i : String)
    (hnd : (ups.map Prod.fst).Nodup) :
    alookup (setCategory cat ups) i = (alookup ups i).or (alookup cat i) := by
  induction ups generalizing cat with
  | nil => simp [setCategory, alookup, Option.or]
  | cons u rest ih =>
    simp only [List.map_cons, List.nodup_cons] at hnd
    have hstep : setCategory cat (u :: rest) = setCategory (aset cat u.1 u.2) rest := by
      simp [setCategory]
    by_cases hu : u.1 = i
    · subst hu
      have hrest : alookup rest u.1 = none :=
        alookup_eq_none_of_not_mem rest u.1 hnd.1
      rw [hstep, alookup_setCategory_none _ _ _ hrest, alookup_aset, if_pos rfl]
      simp [alookup, Option.or]
    · rw [hstep, ih (aset cat u.1 u.2) hnd.2, alookup_aset, if_neg hu]
      simp only [alookup]
      rw [if_neg hu]

theorem klookup_getD (ks : KeyStore) (c i : String) :
    klookup ks c i = alookup ((alookup ks c).getD []) i := by
  unfold klookup
  cases alookup ks c <;> simp [alookup]

theorem klookup_keysSet_none (ks data : KeyStore) (c i : String)
    (h : alookup data c = none) :
    klookup (keysSet ks data) c i = klookup ks c i := by
  induction data generalizing ks with
  | nil => simp [keysSet]
  | cons d rest ih =>
    simp only [alookup] at h
    by_cases hd : d.1 = c
    · rw [if_pos hd] at h; cases h
    · rw [if_neg hd] at h
      have hstep : keysSet ks (d :: rest) =
          keysSet (aset ks d.1 (setCategory ((alookup ks d.1).getD []) d.2)) rest := by
        simp [keysSet]
      rw [hstep, ih _ h]
      unfold klookup
      rw [alookup_aset, if_neg hd]

theorem klookup_keysSet (ks data : KeyStore) (c i : String)
    (hnd : (data.map Prod.fst).Nodup)
    (hcat : ∀ p ∈ data, (p.2.map Prod.fst).Nodup) :
    klookup (keysSet ks data) c i = (klookup data c i).or (klookup ks c i) := by
  induction data generalizing ks with
  | nil => simp [keysSet, klookup, alookup, Option.or]
  | cons d rest ih =>
    simp only [List.map_cons, List.nodup_cons] at hnd
    have hstep : keysSet ks (d :: rest) =
        keysSet (aset ks d.1 (setCategory ((alookup ks d.1).getD []) d.2)) rest := by
      simp [keysSet]
    by_cases hd : d.1 = c
    · subst hd
      have hrest : alookup rest d.1 = none :=
        alookup_eq_none_of_not_mem rest d.1 hnd.1
      rw [hstep, klookup_keysSet_none _ _ _ _ hrest]
      unfold klookup
      rw [alookup_aset, if_pos rfl]
      simp only [alookup, if_pos rfl]
      rw [alookup_setCategory _ _ _ (hcat d (by simp))]
      rw [← klookup_getD]
      unfold klookup
      rfl
    · rw [hstep, ih _ hnd.2 (fun p hp => hcat p (by simp [hp]))]
      have h1 : klookup (aset ks d.1 (setCategory ((alookup ks d.1).getD []) d.2)) c i =
          klookup ks c i := by
        unfold klookup
        rw [alookup_aset, if_neg hd]
      rw [h1]
      have h2 : klookup (d :: rest) c i = klookup rest c i := by
        unfold klookup
        simp only [alookup]
        rw [if_neg hd]
      rw [h2]

/-! ### Claim theorems -/

/-- C1: `ensureSession` is idempotent: in every reachable state, if the
registry holds a live entry for the tenant then `getOrCreateSession` returns
that entry and changes nothing; otherwise it constructs a fresh transport
connection and inserts and returns a new entry in status `connecting`; the
returned session is never in a `disconnected` state. -/
theorem ensureSession_idempotent (s : SysState) (t : String)
    (h : ReachableState s) :
    ((∃ info, alookup s.sessions t = some info ∧ getOrCreateSession s t = (s, info)) ∨
      (alookup s.sessions t = none ∧
        (getOrCreateSession s t).2.status = "connecting" ∧
        (getOrCreateSession s t).2.hasSocket = true ∧
        alookup (getOrCreateSession s t).1.sessions t = some (getOrCreateSession s t).2 ∧
        (getOrCreateSession s t).1.connectionsCreated = s.connectionsCreated + 1)) ∧
    (getOrCreateSession s t).2.status ≠ "disconnected" := by
  have hl := reachable_liveReg h
  rcases hlk : alookup s.sessions t with _ | info
  · constructor
    · right
      refine ⟨rfl, ?_, ?_, ?_, ?_⟩ <;>
        simp [getOrCreateSession, hlk, createSession, alookup_aset]
    · simp [getOrCreateSession, hlk, createSession]
  · obtain ⟨hsock, hdisc⟩ := hl t info hlk
    have heq : getOrCreateSession s t = (s, info) := by
      simp [getOrCreateSession, hlk, hsock]
    constructor
    · exact Or.inl ⟨info, rfl, heq⟩
    · rw [heq]
      exact hdisc

/-- C1 witness: in the initial (empty-registry) state for tenant t1 the
create branch applies. -/
theorem ensureSession_idempotent_witness :
    ((∃ info, alookup (initState []).sessions "t1" = some info ∧
        getOrCreateSession (initState []) "t1" = (initState [], info)) ∨
      (alookup (initState []).sessions "t1" = none ∧
        (getOrCreateSession (initState []) "t1").2.status = "connecting" ∧
        (getOrCreateSession (initState []) "t1").2.hasSocket = true ∧
        alookup (getOrCreateSession (initState []) "t1").1.sessions "t1" =
          some (getOrCreateSession (initState []) "t1").2 ∧
        (getOrCreateSession (initState []) "t1").1.connectionsCreated =
          (initState []).connectionsCreated + 1)) ∧
    (getOrCreateSession (initState []) "t1").2.status ≠ "disconnected" :=
  ensureSession_idempotent (initState []) "t1" ⟨[], Relation.ReflTransGen.refl⟩

/-- C2: a close event with a non-logout code removes the stale entry and
immediately re-invokes `ensureSession`, so a fresh `connecting` entry (with
a new transport connection) exists for the same tenant after the handler,
with no HTTP call involved. -/
theorem transient_close_reconnects (s : SysState) (t : String) (code : Option Nat)
    (msg : Option String) (info : SessionInfo)
    (_hlive : alookup s.sessions t = some info)
    (hcode : code ≠ some DisconnectReason_loggedOut) :
    (∃ info2, alookup (handleClose s t code msg).sessions t = some info2 ∧
       info2.status = "connecting" ∧ info2.hasSocket = true) ∧
    (handleClose s t code msg).connectionsCreated = s.connectionsCreated + 1 := by
  have herase : alookup (aerase s.sessions t) t = none := by
    rw [alookup_aerase, if_pos rfl]
  constructor
  · refine ⟨⟨t, true, "connecting", none⟩, ?_, rfl, rfl⟩
    simp [handleClose, hcode, getOrCreateSession, herase, createSession, alookup_aset]
  · simp [handleClose, hcode, getOrCreateSession, herase, createSession]

/-- C2 witness: a connected tenant t1 hit by stream-error code 515. -/
theorem transient_close_reconnects_witness :
    (∃ info2,
        alookup (handleClose ⟨[("t1", ⟨"t1", true, "connected", none⟩)], [], 1, 0⟩
          "t1" (some 515) none).sessions "t1" = some info2 ∧
        info2.status = "connecting" ∧ info2.hasSocket = true) ∧
    (handleClose ⟨[("t1", ⟨"t1", true, "connected", none⟩)], [], 1, 0⟩
        "t1" (some 515) none).connectionsCreated =
      (⟨[("t1", ⟨"t1", true, "connected", none⟩)], [], 1, 0⟩ : SysState).connectionsCreated
        + 1 :=
  transient_close_reconnects _ "t1" (some 515) none ⟨"t1", true, "connected", none⟩
    rfl (by decide)

/-- C3: a close event with the explicit-logout code removes the tenant's
registry entry, persists status `disconnected`, clears the persisted
credential bundle and the pending pairing challenge, and creates no new
connection. -/
theorem logout_close_terminal (s : SysState) (t : String) (msg : Option String)
    (row : DBRow) (hrow : alookup s.db t = some row) :
    alookup (handleClose s t (some DisconnectReason_loggedOut) msg).sessions t = none ∧
    alookup (handleClose s t (some DisconnectReason_loggedOut) msg).db t =
      some { row with status := "disconnected", qrData := none, authState := none,
                      lastError := some ("Logout: " ++
                        (jsOrS msg (some "Desconexión desconocida")).getD "") } ∧
    (handleClose s t (some DisconnectReason_loggedOut) msg).connectionsCreated =
      s.connectionsCreated := by
  refine ⟨?_, ?_, ?_⟩
  · simp [handleClose, alookup_aerase]
  · simp [handleClose, dbSetDisconnected, alookup_updateRowIfPresent, hrow]
  · simp [handleClose]

/-- C3 witness: logout (code 401) for tenant t1 whose DB row was connected
with stored credentials and a stale challenge. -/
theorem logout_close_terminal_witness :
    alookup (handleClose
        ⟨[("t1", ⟨"t1", true, "connected", none⟩)],
         [("t1", ⟨"connected", some "QR", some "AUTH", none⟩)], 1, 0⟩
        "t1" (some DisconnectReason_loggedOut) (some "logged out")).sessions "t1" = none ∧
    alookup (handleClose
        ⟨[("t1", ⟨"t1", true, "connected", none⟩)],
         [("t1", ⟨"connected", some "QR", some "AUTH", none⟩)], 1, 0⟩
        "t1" (some DisconnectReason_loggedOut) (some "logged out")).db "t1" =
      some { (⟨"connected", some "QR", some "AUTH", none⟩ : DBRow) with
              status := "disconnected", qrData := none, authState := none,
              lastError := some ("Logout: " ++
                (jsOrS (some "logged out") (some "Desconexión desconocida")).getD "") } ∧
    (handleClose
        ⟨[("t1", ⟨"t1", true, "connected", none⟩)],
         [("t1", ⟨"connected", some "QR", some "AUTH", none⟩)], 1, 0⟩
        "t1" (some DisconnectReason_loggedOut) (some "logged out")).connectionsCreated =
      (⟨[("t1", ⟨"t1", true, "connected", none⟩)],
        [("t1", ⟨"connected", some "QR", some "AUTH", none⟩)], 1, 0⟩ :
          SysState).connectionsCreated :=
  logout_close_terminal _ "t1" (some "logged out") ⟨"connected", some "QR", some "AUTH", none⟩ rfl

/-- C4: the code violates the claim.  Because `getOrCreateSession` awaits
the credential-bundle load between the registry check (line 188) and the
registry insertion (line 208), two near-simultaneous calls for the same
unconnected tenant can both pass the check; the modelled interleaving
constructs two transport connections while the registry ends up with a
single entry, so a second live connection is orphaned. -/
theorem two_ensure_two_connections :
    (twoEnsureInterleaved (initState []) "t1").connectionsCreated = 2 ∧
    (twoEnsureInterleaved (initState []) "t1").sessions.map Prod.fst = ["t1"] := by
  constructor <;> rfl

/-- C5: the code violates the claim.  The part_000 `messages.upsert` handler
has no try/catch, so a failing transport send propagates out of the handler
(an unhandled promise rejection); the second `wa-server.js` handler wraps
the same pipeline in try/catch and swallows the identical failure. -/
theorem upsert_send_error_uncaught :
    handleUpsert_p0 (fun _ => some "respuesta") (fun _ _ => .error "send failed")
      demoInbound = .error "send failed" ∧
    handleUpsert_waB (fun _ => some "respuesta") (fun _ _ => .error "send failed")
      demoInbound = .dropped :=
  ⟨rfl, rfl⟩

/-- C6 counterexample: a status-update broadcast (`status@broadcast`) with
non-empty text, not from the bot, is forwarded to the reply decision engine
by the part_000 handler, contradicting the claim that broadcast/status
identifiers are dropped. -/
theorem status_broadcast_reaches_engine :
    engineInput_p0 statusInbound = some ("status@broadcast", "hola") :=
  rfl

/-- C6 amended: in both handlers, messages with no content, messages from
the bot's own account, and messages to group identifiers never reach the
reply decision engine, and only non-empty extracted text reaches it; only
the second `wa-server.js` handler additionally drops identifiers ending in
`@status` — neither drops other broadcast identifiers. -/
theorem upsert_filters_amended :
    (∀ (m : UpsertEvent) (j t : String) (msg : WAMessage),
        engineInput_p0 m = some (j, t) → m.messages.head? = some msg →
        t ≠ "" ∧ includesStr j "@g.us" = false ∧ msg.key.fromMe = false ∧
        msg.message ≠ none ∧ msg.key.remoteJid = some j) ∧
    (∀ (m : UpsertEvent) (j t : String) (msg : WAMessage),
        engineInput_waB m = some (j, t) → m.messages.head? = some msg →
        t ≠ "" ∧ endsWithStr j "@g.us" = false ∧ endsWithStr j "@status" = false ∧
        msg.key.fromMe = false ∧ msg.message ≠ none ∧ msg.key.remoteJid = some j) := by
  constructor
  · intro m j t msg h hm
    rcases msg with ⟨⟨fm, rj⟩, mc⟩
    unfold engineInput_p0 handleUpsert_p0 at h
    rw [hm] at h
    rcases mc with _ | content
    · simp at h
    · cases fm
      · simp only [Bool.false_eq_true, if_false] at h
        rcases rj with _ | jid
        · simp at h
        · by_cases hg : includesStr jid "@g.us"
          · simp [hg] at h
          · simp only [hg, Bool.false_eq_true, if_false] at h
            rcases hx : jsOrS content.conversation content.extendedText with _ | text
            · rw [hx] at h; simp at h
            · rw [hx] at h
              by_cases ht : text = ""
              · simp [ht] at h
              · simp only [ht, if_false] at h
                obtain ⟨rfl, rfl⟩ : jid = j ∧ text = t := by
                  simpa using h
                exact ⟨ht, Bool.eq_false_iff.mpr hg, rfl, by simp, rfl⟩
      · simp at h
  · intro m j t msg h hm
    rcases msg with ⟨⟨fm, rj⟩, mc⟩
    unfold engineInput_waB handleUpsert_waB handleUpsert_waB_inner at h
    rw [hm] at h
    rcases mc with _ | content
    · simp at h
    · rcases rj with _ | jid
      · simp at h
      · by_cases hs : endsWithStr jid "@status"
        · simp [hs] at h
        · simp only [hs, Bool.false_eq_true, if_false] at h
          by_cases hg : endsWithStr jid "@g.us"
          · simp [hg] at h
          · simp only [hg, Bool.false_eq_true, if_false] at h
            cases fm
            · simp only [Bool.false_eq_true, if_false] at h
              by_cases ht : trimStr ((jsOrS content.conversation
                  (jsOrS content.extendedText
                    (jsOrS content.ephConversation content.ephExtendedText))).getD "") = ""
              · simp [ht] at h
              · simp only [ht, if_false] at h
                obtain ⟨rfl, rfl⟩ : jid = j ∧ trimStr ((jsOrS content.conversation
                    (jsOrS content.extendedText
                      (jsOrS content.ephConversation content.ephExtendedText))).getD "") = t := by
                  simpa using h
                exact ⟨ht, Bool.eq_false_iff.mpr hg, Bool.eq_false_iff.mpr hs, rfl,
                  by simp, rfl⟩
            · simp at h

/-- C6 amended witness: a plain direct message passes the filter and the
guaranteed facts hold for it. -/
theorem upsert_filters_amended_witness :
    (engineInput_p0 plainInbound = some ("18095551234@s.whatsapp.net", "hola") ∧
      ("hola" : String) ≠ "" ∧
      includesStr "18095551234@s.whatsapp.net" "@g.us" = false ∧
      (plainInbound.messages.head?.map (fun msg => msg.key.fromMe)) = some false) ∧
    (("hola" : String) ≠ "" ∧ includesStr "18095551234@s.whatsapp.net" "@g.us" = false ∧
      WAKey.fromMe ⟨false, some "18095551234@s.whatsapp.net"⟩ = false ∧
      (some (⟨some "hola", none, none, none⟩ : WATextContent) : Option WATextContent) ≠ none ∧
      WAKey.remoteJid ⟨false, some "18095551234@s.whatsapp.net"⟩ =
        some "18095551234@s.whatsapp.net") := by
  constructor
  · exact ⟨rfl, by decide, by decide, rfl⟩
  · have h := (upsert_filters_amended).1 plainInbound "18095551234@s.whatsapp.net" "hola"
      ⟨⟨false, some "18095551234@s.whatsapp.net"⟩, some ⟨some "hola", none, none, none⟩⟩
      rfl rfl
    exact ⟨h.1, h.2.1, h.2.2.1, h.2.2.2.1, h.2.2.2.2⟩

/-- C7: `keys.set` merges the incoming key material into the credential
bundle — per (category, id) a new value overwrites the old one, absent pairs
keep their old value, nothing is deleted — and the snapshot persisted before
the update is acknowledged is exactly the full merged bundle, credentials
included. -/
theorem creds_update_merge (b : AuthBundle) (data : KeyStore) (c i : String)
    (hnd : (data.map Prod.fst).Nodup)
    (hcat : ∀ p ∈ data, (p.2.map Prod.fst).Nodup) :
    klookup (keysSetHook b data).1.keys c i =
      (klookup data c i).or (klookup b.keys c i) ∧
    (keysSetHook b data).2 = (keysSetHook b data).1 ∧
    (keysSetHook b data).1.creds = b.creds :=
  ⟨klookup_keysSet b.keys data c i hnd hcat, rfl, rfl⟩

/-- C7 witness: merging a rotation event that overwrites one session key and
adds a pre-key, on a bundle holding two keys. -/
theorem creds_update_merge_witness :
    ((([("session", [("s1", "new"), ("s2", "v2")]), ("pre-key", [("p1", "pv")])] :
        KeyStore).map Prod.fst).Nodup ∧
      ∀ p ∈ ([("session", [("s1", "new"), ("s2", "v2")]), ("pre-key", [("p1", "pv")])] :
        KeyStore), (p.2.map Prod.fst).Nodup) ∧
    klookup (keysSetHook ⟨"CREDS", [("session", [("s1", "old"), ("s3", "keep")])]⟩
        [("session", [("s1", "new"), ("s2", "v2")]), ("pre-key", [("p1", "pv")])]).1.keys
        "session" "s1" =
      (klookup [("session", [("s1", "new"), ("s2", "v2")]), ("pre-key", [("p1", "pv")])]
          "session" "s1").or
        (klookup [("session", [("s1", "old"), ("s3", "keep")])] "session" "s1") ∧
    (keysSetHook ⟨"CREDS", [("session", [("s1", "old"), ("s3", "keep")])]⟩
        [("session", [("s1", "new"), ("s2", "v2")]), ("pre-key", [("p1", "pv")])]).2 =
      (keysSetHook ⟨"CREDS", [("session", [("s1", "old"), ("s3", "keep")])]⟩
        [("session", [("s1", "new"), ("s2", "v2")]), ("pre-key", [("p1", "pv")])]).1 ∧
    (keysSetHook ⟨"CREDS", [("session", [("s1", "old"), ("s3", "keep")])]⟩
        [("session", [("s1", "new"), ("s2", "v2")]), ("pre-key", [("p1", "pv")])]).1.creds =
      "CREDS" := by
  refine ⟨⟨by decide, by decide⟩, ?_⟩
  exact creds_update_merge ⟨"CREDS", [("session", [("s1", "old"), ("s3", "keep")])]⟩
    [("session", [("s1", "new"), ("s2", "v2")]), ("pre-key", [("p1", "pv")])]
    "session" "s1" (by decide) (by decide)

/-- C8: a pricing-keyword message for a tenant with an active
`pricing_pitch` template always gets that template's body rendered with
empty variables, never an AI-generated reply. -/
theorem pricing_template_wins (tdb : List TemplateRecord) (tenantId text : String)
    (aiResult ai2 : Option String) (body : String)
    (hkw : priceKeywords.any (fun kw => includesStr (toLowerStr (trimStr text)) kw) = true)
    (htpl : getTemplate tdb tenantId "pricing_pitch" = some body) :
    generateReply tdb tenantId text aiResult = .fromTemplate (renderTemplate body []) ∧
    generateReply tdb tenantId text aiResult ≠ .fromAI ai2 := by
  have h1 : generateReply tdb tenantId text aiResult =
      .fromTemplate (renderTemplate body []) := by
    unfold generateReply
    simp only [hkw, if_true, htpl]
  refine ⟨h1, ?_⟩
  rw [h1]
  exact fun hh => ReplyResult.noConfusion hh

/-- C8 witness: an uppercase "PRECIO" question against a tenant with an
active pricing template. -/
theorem pricing_template_wins_witness :
    (priceKeywords.any (fun kw =>
        includesStr (toLowerStr (trimStr "  Hola, PRECIO por favor ")) kw) = true ∧
      getTemplate [⟨"t1", "pricing_pitch", true, "Planes: 4500 al mes"⟩]
        "t1" "pricing_pitch" = some "Planes: 4500 al mes") ∧
    generateReply [⟨"t1", "pricing_pitch", true, "Planes: 4500 al mes"⟩] "t1"
        "  Hola, PRECIO por favor " (some "respuesta IA") =
      .fromTemplate (renderTemplate "Planes: 4500 al mes" []) ∧
    generateReply [⟨"t1", "pricing_pitch", true, "Planes: 4500 al mes"⟩] "t1"
        "  Hola, PRECIO por favor " (some "respuesta IA") ≠
      .fromAI (some "respuesta IA") := by
  refine ⟨⟨by decide, by decide⟩, ?_⟩
  exact pricing_template_wins [⟨"t1", "pricing_pitch", true, "Planes: 4500 al mes"⟩]
    "t1" "  Hola, PRECIO por favor " (some "respuesta IA") (some "respuesta IA")
    "Planes: 4500 al mes" (by decide) (by decide)

/-- C9: template rendering substitutes every well-formed placeholder by the
variable's value (empty string when absent), leaves text without placeholder
matches — in particular non-identifier brace sequences — unchanged, is a
pure function, and is idempotent on bodies whose rendering re-introduces no
placeholder. -/
theorem render_resolver_spec (body : String) (vars : List (String × String))
    (w rest l : List Char)
    (hw : w ≠ []) (hall : w.all isWordChar = true) (hnoph : hasPH l = false)
    (hidem : hasPlaceholder (renderTemplate body vars) = false) :
    renderAux vars ('{' :: '{' :: (w ++ '}' :: '}' :: rest)) =
      (lookupVar vars w).data ++ renderAux vars rest ∧
    renderAux vars l = l ∧
    renderTemplate (renderTemplate body vars) vars = renderTemplate body vars :=
  ⟨renderAux_placeholder vars w rest hw hall, renderAux_no_ph vars l hnoph,
   renderTemplate_idem_aux body vars hidem⟩

/-- C9 witness: the `name` placeholder in a greeting, a braces-only
non-identifier sequence, and idempotence on the rendered greeting. -/
theorem render_resolver_spec_witness :
    ((['n', 'a', 'm', 'e'] : List Char) ≠ [] ∧
      (['n', 'a', 'm', 'e'] : List Char).all isWordChar = true ∧
      hasPH ['\x7b', '\x7d', ' ', '\x7b', '\x7b', ' ', 'x', '\x7d', '\x7d'] = false ∧
      hasPlaceholder (renderTemplate "Hola \x7b\x7bname\x7d\x7d!"
        [("name", "Ana")]) = false) ∧
    renderAux [("name", "Ana")]
        ('{' :: '{' :: (['n', 'a', 'm', 'e'] ++ '}' :: '}' :: [' ', '!'])) =
      (lookupVar [("name", "Ana")] ['n', 'a', 'm', 'e']).data ++
        renderAux [("name", "Ana")] [' ', '!'] ∧
    renderAux [("name", "Ana")]
        ['\x7b', '\x7d', ' ', '\x7b', '\x7b', ' ', 'x', '\x7d', '\x7d'] =
      ['\x7b', '\x7d', ' ', '\x7b', '\x7b', ' ', 'x', '\x7d', '\x7d'] ∧
    renderTemplate (renderTemplate "Hola \x7b\x7bname\x7d\x7d!" [("name", "Ana")])
        [("name", "Ana")] =
      renderTemplate "Hola \x7b\x7bname\x7d\x7d!" [("name", "Ana")] := by
  refine ⟨⟨by decide, by decide, by decide, by decide⟩, ?_⟩
  exact render_resolver_spec "Hola \x7b\x7bname\x7d\x7d!" [("name", "Ana")]
    ['n', 'a', 'm', 'e'] [' ', '!']
    ['\x7b', '\x7d', ' ', '\x7b', '\x7b', ' ', 'x', '\x7d', '\x7d']
    (by decide) (by decide) (by decide) (by decide)

/-- C10: a valid send-template request for a tenant that is absent or not
`connected` returns the not-connected error even though one `ensureSession`
attempt is made — a freshly created session is still `connecting` at the
post-attempt check — and no message is sent. -/
theorem send_template_not_connected (s : SysState) (tdb : List TemplateRecord)
    (t event phone : String) (vars : List (String × String)) (sendOk : Bool)
    (he : jsTruthyS (some event) = true) (hp : jsTruthyS (some phone) = true)
    (h : ∀ info, alookup s.sessions t = some info → info.status ≠ "connected") :
    (sendTemplateHandler s tdb t (some event) (some phone) vars sendOk).2 =
      .notConnected ∧
    (sendTemplateHandler s tdb t (some event) (some phone) vars sendOk).1.messagesSent =
      s.messagesSent := by
  have hconn : ("connecting" : String) ≠ "connected" := by decide
  have hsess : (ensureForSend s t).2.status ≠ "connected" ∧
      (ensureForSend s t).1.messagesSent = s.messagesSent := by
    rcases hlk : alookup s.sessions t with _ | sess0
    · rw [ensureForSend_none hlk, getOrCreateSession_none hlk]
      exact ⟨hconn, rfl⟩
    · have hnc := h sess0 hlk
      rw [ensureForSend_some hlk, if_neg hnc, getOrCreateSession_some hlk]
      by_cases hsock : sess0.hasSocket = true
      · rw [if_pos hsock]
        exact ⟨hnc, rfl⟩
      · rw [if_neg hsock]
        exact ⟨hconn, rfl⟩
  unfold sendTemplateHandler
  rw [he, hp]
  simp only [Bool.not_true, Bool.or_self, Bool.false_eq_true, if_false]
  rw [if_pos hsess.1]
  exact ⟨rfl, hsess.2⟩

/-- C10 witness: tenant t1 with no session at all, a valid event and phone. -/
theorem send_template_not_connected_witness :
    (jsTruthyS (some "recordatorio") = true ∧ jsTruthyS (some "18095551234") = true) ∧
    (sendTemplateHandler (initState []) [] "t1" (some "recordatorio")
        (some "18095551234") [] true).2 = .notConnected ∧
    (sendTemplateHandler (initState []) [] "t1" (some "recordatorio")
        (some "18095551234") [] true).1.messagesSent = (initState []).messagesSent := by
  refine ⟨⟨by decide, by decide⟩, ?_⟩
  exact send_template_not_connected (initState []) [] "t1" "recordatorio" "18095551234"
    [] true (by decide) (by decide)
    (fun info hh => absurd hh (by simp [initState, alookup]))

end WaServer
